import Mathlib

/-!
Verification of the collision-checking library in
`src/collision check/collision_check.cpp` against its specification.

The C++ source is a single translation unit instantiated at `T = double`;
we model the scalar type as `ℝ`.  Out-of-range `std::vector` element access
is undefined behaviour in C++, so trajectory indexing is modelled with
`Option`: a computation that reads past the end of a trajectory is `none`.
The unsigned wrap-around of `size() - 1` on `std::size_t` is modelled
explicitly by `sizeSub1`.
-/

open scoped Classical

/-- `Point` from the source: a pair of coordinates. -/
structure Point where
  x : ℝ
  y : ℝ

/-- `CollisionCheck::DynamicObj`: a predicted trajectory plus a safety radius. -/
structure DynamicObj where
  future_traj : List Point
  radius : ℝ

/-- `CollisionCheck::eucliDist`.  The source computes
`sqrt(pow(p1.x - p2.x, 2) + pow(p1.y + p2.y, 2))`; note the `+` between the
y-coordinates, reproduced here faithfully. -/
noncomputable def eucliDist (p1 p2 : Point) : ℝ :=
  Real.sqrt ((p1.x - p2.x) ^ 2 + (p1.y + p2.y) ^ 2)

/-- The `denominator = dy_12 * dx_34 - dx_12 * dy_34` of
`CollisionCheck::Intersection`. -/
def denom (p1 p2 p3 p4 : Point) : ℝ :=
  (p2.y - p1.y) * (p4.x - p3.x) - (p2.x - p1.x) * (p4.y - p3.y)

/-- The parameter `t1 = ((p1.x - p3.x) * dy_34 + (p3.y - p1.y) * dx_34) / denominator`
of `CollisionCheck::Intersection`. -/
noncomputable def tA (p1 p2 p3 p4 : Point) : ℝ :=
  ((p1.x - p3.x) * (p4.y - p3.y) + (p3.y - p1.y) * (p4.x - p3.x)) / denom p1 p2 p3 p4

/-- The parameter `t2 = ((p1.x - p3.x) * dy_12 + (p3.y - p1.y) * dx_12) / denominator`
of `CollisionCheck::Intersection`. -/
noncomputable def tB (p1 p2 p3 p4 : Point) : ℝ :=
  ((p1.x - p3.x) * (p2.y - p1.y) + (p3.y - p1.y) * (p2.x - p1.x)) / denom p1 p2 p3 p4

/-- The two sequential conditional assignments `t = t < 0 ? 0 : t;`
`t = t > 1 ? 1 : t;` of `CollisionCheck::Intersection`. -/
noncomputable def clamp01 (t : ℝ) : ℝ :=
  let t' := if t < 0 then 0 else t
  if t' > 1 then 1 else t'

/-- `CollisionCheck::Intersection`.  Mirrors the source line by line: the
parallel fallback returns `eucliDist p1 p2`; the segments-intersect branch
returns `0`; otherwise the clamped closest points are built, the second one
with `p1.y` (not `p3.y`) as the base of its y-coordinate, exactly as in the
source line `Point<T> close_p2 = {p3.x + dx_34 * t2, p1.y + dy_34 * t2};`. -/
noncomputable def Intersection (p1 p2 p3 p4 : Point) : ℝ :=
  if |denom p1 p2 p3 p4 - 0| < 1e-4 then
    eucliDist p1 p2
  else if tA p1 p2 p3 p4 ≥ 0 ∧ tA p1 p2 p3 p4 ≤ 1 ∧
          tB p1 p2 p3 p4 ≥ 0 ∧ tB p1 p2 p3 p4 ≤ 1 then
    0
  else
    eucliDist
      ⟨p1.x + (p2.x - p1.x) * clamp01 (tA p1 p2 p3 p4),
       p1.y + (p2.y - p1.y) * clamp01 (tA p1 p2 p3 p4)⟩
      ⟨p3.x + (p4.x - p3.x) * clamp01 (tB p1 p2 p3 p4),
       p1.y + (p4.y - p3.y) * clamp01 (tB p1 p2 p3 p4)⟩

/-- Models the C++ expression `v.size() - 1` where `size()` returns the
unsigned 64-bit type `std::size_t`: subtraction wraps modulo `2 ^ 64`. -/
def sizeSub1 (n : ℕ) : ℕ :=
  (n + (2 ^ 64 - 1)) % 2 ^ 64

/-- One iteration body of the double loop of
`CollisionCheck::collisionCheckBetweenTwoPaths`: reads
`ego.future_traj[i]`, `ego.future_traj[i+1]`, `obj.future_traj[j]`,
`obj.future_traj[j+1]` and forms their segment distance; `none` when any
of the four reads is out of range (undefined behaviour in the source). -/
noncomputable def segPair (e o : List Point) (i j : ℕ) : Option ℝ :=
  match e[i]?, e[i + 1]?, o[j]?, o[j + 1]? with
  | some e1, some e2, some o1, some o2 => some (Intersection e1 e2 o1 o2)
  | _, _, _, _ => none

/-- The inner `for (j ...)` loop of `collisionCheckBetweenTwoPaths`,
with the number of remaining iterations passed explicitly. -/
noncomputable def innerLoop (safe : ℝ) (e o : List Point) (i : ℕ) : ℕ → ℕ → Option Bool
  | _, 0 => some false
  | j, fuel + 1 =>
    match segPair e o i j with
    | none => none
    | some dist => if dist < safe then some true else innerLoop safe e o i (j + 1) fuel

/-- The outer `for (i ...)` loop of `collisionCheckBetweenTwoPaths`;
each iteration runs the inner loop over `jb = obj.future_traj.size() - 1`
segment indices (the inner bound is loop-invariant in the source, so it is
passed in once). -/
noncomputable def outerLoop (safe : ℝ) (e o : List Point) (jb : ℕ) : ℕ → ℕ → Option Bool
  | _, 0 => some false
  | i, fuel + 1 =>
    match innerLoop safe e o i 0 jb with
    | none => none
    | some true => some true
    | some false => outerLoop safe e o jb (i + 1) fuel

/-- `CollisionCheck::collisionCheckBetweenTwoPaths(obj, ego)`:
`safe_dist = ego.radius + obj.radius`, then the double loop over the
segment pairs with the unsigned `size() - 1` bounds. -/
noncomputable def collisionCheckBetweenTwoPaths (obj ego : DynamicObj) : Option Bool :=
  outerLoop (ego.radius + obj.radius) ego.future_traj obj.future_traj
    (sizeSub1 obj.future_traj.length) 0 (sizeSub1 ego.future_traj.length)

/-- The data members of class `CollisionCheck`: the ego record and the
collection of surrounding objects. -/
structure CollisionCheck where
  ego : DynamicObj
  surroundings : List DynamicObj

/-- One step of the loop of `CollisionCheck::collisionCheck`: if the
pairwise check of the current object failed, the whole call fails; if it
reported a collision, `return true` fires; otherwise the loop continues
with the remaining objects. -/
def scanStep (r rest : Option Bool) : Option Bool :=
  match r with
  | none => none
  | some true => some true
  | some false => rest

/-- The loop of `CollisionCheck::collisionCheck` over `surroundings`,
returning on the first object whose pairwise check reports a collision. -/
noncomputable def collisionCheckList (ego : DynamicObj) : List DynamicObj → Option Bool
  | [] => some false
  | obj :: rest =>
    scanStep (collisionCheckBetweenTwoPaths obj ego) (collisionCheckList ego rest)

/-- `CollisionCheck::collisionCheck`. -/
noncomputable def collisionCheck (c : CollisionCheck) : Option Bool :=
  collisionCheckList c.ego c.surroundings

/-! ### Basic computation lemmas -/

/-- On the empty trajectory, `size() - 1` wraps around to `2 ^ 64 - 1`. -/
theorem sizeSub1_zero : sizeSub1 0 = 2 ^ 64 - 1 := by
  unfold sizeSub1; norm_num

/-- For list lengths in the representable range, `size() - 1` is ordinary
subtraction. -/
theorem sizeSub1_of_pos {n : ℕ} (h1 : 1 ≤ n) (h2 : n ≤ 2 ^ 64) : sizeSub1 n = n - 1 := by
  unfold sizeSub1; omega

theorem sizeSub1_one : sizeSub1 1 = 0 := by
  unfold sizeSub1; omega

theorem sizeSub1_two : sizeSub1 2 = 1 := by
  unfold sizeSub1; omega

attribute [irreducible] sizeSub1

theorem innerLoop_zero (safe : ℝ) (e o : List Point) (i j : ℕ) :
    innerLoop safe e o i j 0 = some false := rfl

theorem innerLoop_succ (safe : ℝ) (e o : List Point) (i j fuel : ℕ) :
    innerLoop safe e o i j (fuel + 1) =
      match segPair e o i j with
      | none => none
      | some dist => if dist < safe then some true else innerLoop safe e o i (j + 1) fuel := rfl

theorem innerLoop_pos (safe : ℝ) (e o : List Point) (i j fuel : ℕ) (h : fuel ≠ 0) :
    innerLoop safe e o i j fuel =
      match segPair e o i j with
      | none => none
      | some dist => if dist < safe then some true else innerLoop safe e o i (j + 1) (fuel - 1) := by
  cases fuel with
  | zero => exact absurd rfl h
  | succ n => rfl

theorem outerLoop_zero (safe : ℝ) (e o : List Point) (jb i : ℕ) :
    outerLoop safe e o jb i 0 = some false := rfl

theorem outerLoop_succ (safe : ℝ) (e o : List Point) (jb i fuel : ℕ) :
    outerLoop safe e o jb i (fuel + 1) =
      match innerLoop safe e o i 0 jb with
      | none => none
      | some true => some true
      | some false => outerLoop safe e o jb (i + 1) fuel := rfl

theorem outerLoop_pos (safe : ℝ) (e o : List Point) (jb i fuel : ℕ) (h : fuel ≠ 0) :
    outerLoop safe e o jb i fuel =
      match innerLoop safe e o i 0 jb with
      | none => none
      | some true => some true
      | some false => outerLoop safe e o jb (i + 1) (fuel - 1) := by
  cases fuel with
  | zero => exact absurd rfl h
  | succ n => rfl

/-! ### Branch lemmas for `Intersection` -/

/-- The parallel fallback branch of `Intersection`. -/
theorem Intersection_of_parallel (p1 p2 p3 p4 : Point)
    (h : |denom p1 p2 p3 p4 - 0| < 1e-4) :
    Intersection p1 p2 p3 p4 = eucliDist p1 p2 := by
  unfold Intersection
  rw [if_pos h]

/-- The segments-intersect branch of `Intersection`. -/
theorem Intersection_of_crossing (p1 p2 p3 p4 : Point)
    (hden : ¬ |denom p1 p2 p3 p4 - 0| < 1e-4)
    (h1 : tA p1 p2 p3 p4 ≥ 0) (h2 : tA p1 p2 p3 p4 ≤ 1)
    (h3 : tB p1 p2 p3 p4 ≥ 0) (h4 : tB p1 p2 p3 p4 ≤ 1) :
    Intersection p1 p2 p3 p4 = 0 := by
  unfold Intersection
  rw [if_neg hden, if_pos ⟨h1, h2, h3, h4⟩]

/-- The clamped branch of `Intersection`. -/
theorem Intersection_of_clamp (p1 p2 p3 p4 : Point)
    (hden : ¬ |denom p1 p2 p3 p4 - 0| < 1e-4)
    (hnot : ¬ (tA p1 p2 p3 p4 ≥ 0 ∧ tA p1 p2 p3 p4 ≤ 1 ∧
               tB p1 p2 p3 p4 ≥ 0 ∧ tB p1 p2 p3 p4 ≤ 1)) :
    Intersection p1 p2 p3 p4 =
      eucliDist
        ⟨p1.x + (p2.x - p1.x) * clamp01 (tA p1 p2 p3 p4),
         p1.y + (p2.y - p1.y) * clamp01 (tA p1 p2 p3 p4)⟩
        ⟨p3.x + (p4.x - p3.x) * clamp01 (tB p1 p2 p3 p4),
         p1.y + (p4.y - p3.y) * clamp01 (tB p1 p2 p3 p4)⟩ := by
  unfold Intersection
  rw [if_neg hden, if_neg hnot]

theorem clamp01_of_neg {t : ℝ} (h : t < 0) : clamp01 t = 0 := by
  show (if (if t < 0 then (0:ℝ) else t) > 1 then 1 else (if t < 0 then 0 else t)) = 0
  rw [if_pos h, if_neg (by norm_num)]

theorem clamp01_of_mem {t : ℝ} (h0 : 0 ≤ t) (h1 : t ≤ 1) : clamp01 t = t := by
  show (if (if t < 0 then (0:ℝ) else t) > 1 then 1 else (if t < 0 then 0 else t)) = t
  rw [if_neg (not_lt.mpr h0), if_neg (not_lt.mpr h1)]

theorem clamp01_of_gt {t : ℝ} (h : 1 < t) : clamp01 t = 1 := by
  have h0 : ¬ t < 0 := not_lt.mpr (le_trans zero_le_one h.le)
  show (if (if t < 0 then (0:ℝ) else t) > 1 then 1 else (if t < 0 then 0 else t)) = 1
  rw [if_neg h0, if_pos h]

/-- Helper for evaluating `Real.sqrt` at perfect squares. -/
theorem sqrt_eval {a b : ℝ} (hb : 0 ≤ b) (h : a = b ^ 2) : Real.sqrt a = b := by
  rw [h, Real.sqrt_sq hb]

/-! ### Concrete evaluations -/

theorem eucliDist_vertical : eucliDist ⟨0, 1⟩ ⟨0, 2⟩ = 3 := by
  unfold eucliDist
  exact sqrt_eval (by norm_num) (by norm_num)

theorem eucliDist_unit : eucliDist ⟨0, 0⟩ ⟨1, 0⟩ = 1 := by
  unfold eucliDist
  exact sqrt_eval (by norm_num) (by norm_num)

theorem eucliDist_sqrt_eight : eucliDist ⟨0, 1⟩ ⟨2, 1⟩ = Real.sqrt 8 := by
  unfold eucliDist
  norm_num

theorem eucliDist_same : eucliDist ⟨0, 0⟩ ⟨0, 0⟩ = 0 := by
  unfold eucliDist
  norm_num

theorem eucliDist_five : eucliDist ⟨0, 0⟩ ⟨0, 5⟩ = 5 := by
  unfold eucliDist
  exact sqrt_eval (by norm_num) (by norm_num)

/-- The two demo crossing segments `(0,0)-(1,1)` and `(0,1)-(1,0)` intersect,
so `Intersection` returns `0` on them. -/
theorem Intersection_cross : Intersection ⟨0, 0⟩ ⟨1, 1⟩ ⟨0, 1⟩ ⟨1, 0⟩ = 0 := by
  apply Intersection_of_crossing
  · norm_num [denom, abs_lt]
  · norm_num [tA, denom]
  · norm_num [tA, denom]
  · norm_num [tB, denom]
  · norm_num [tB, denom]

/-- Evaluation of the pairwise check on one-segment trajectories:
a single `Intersection` call compared against the combined radius. -/
theorem pairwise_two_two (o1 o2 e1 e2 : Point) (r1 r2 : ℝ) :
    collisionCheckBetweenTwoPaths ⟨[o1, o2], r1⟩ ⟨[e1, e2], r2⟩ =
      if Intersection e1 e2 o1 o2 < r2 + r1 then some true else some false := by
  have hsp : segPair [e1, e2] [o1, o2] 0 0 = some (Intersection e1 e2 o1 o2) := by
    simp [segPair]
  have hin : innerLoop (r2 + r1) [e1, e2] [o1, o2] 0 0 1 =
      if Intersection e1 e2 o1 o2 < r2 + r1 then some true else some false := by
    rw [innerLoop_pos _ _ _ _ _ _ one_ne_zero, hsp]
    dsimp only
    by_cases hd : Intersection e1 e2 o1 o2 < r2 + r1
    · rw [if_pos hd, if_pos hd]
    · rw [if_neg hd, if_neg hd]
      rfl
  unfold collisionCheckBetweenTwoPaths
  dsimp only
  rw [show ([o1, o2] : List Point).length = 2 from rfl,
      show ([e1, e2] : List Point).length = 2 from rfl, sizeSub1_two]
  rw [outerLoop_pos _ _ _ _ _ _ one_ne_zero, hin]
  by_cases hd : Intersection e1 e2 o1 o2 < r2 + r1
  · rw [if_pos hd]
  · rw [if_neg hd]
    rfl

/-- With an empty ego trajectory the unsigned loop bound wraps around and the
very first iteration reads `ego.future_traj[0]` out of range. -/
theorem pairwise_ego_empty (o1 o2 : Point) (r1 r2 : ℝ) :
    collisionCheckBetweenTwoPaths ⟨[o1, o2], r1⟩ ⟨([] : List Point), r2⟩ = none := by
  have hsp : segPair ([] : List Point) [o1, o2] 0 0 = none := by
    simp [segPair]
  unfold collisionCheckBetweenTwoPaths
  dsimp only
  rw [show (([] : List Point)).length = 0 from rfl,
      show ([o1, o2] : List Point).length = 2 from rfl, sizeSub1_two, sizeSub1_zero]
  rw [outerLoop_pos _ _ _ _ _ _ (by norm_num : (2:ℕ) ^ 64 - 1 ≠ 0)]
  rw [innerLoop_pos _ _ _ _ _ _ one_ne_zero, hsp]

/-- With an empty surrounding-object trajectory (and an ego trajectory of at
least two points) the inner unsigned bound wraps around and the first inner
iteration reads `obj.future_traj[0]` out of range. -/
theorem pairwise_obj_empty (e1 e2 : Point) (r1 r2 : ℝ) :
    collisionCheckBetweenTwoPaths ⟨([] : List Point), r1⟩ ⟨[e1, e2], r2⟩ = none := by
  have hsp : segPair [e1, e2] ([] : List Point) 0 0 = none := by
    simp [segPair]
  unfold collisionCheckBetweenTwoPaths
  dsimp only
  rw [show (([] : List Point)).length = 0 from rfl,
      show ([e1, e2] : List Point).length = 2 from rfl, sizeSub1_two, sizeSub1_zero]
  rw [outerLoop_pos _ _ _ _ _ _ one_ne_zero]
  rw [innerLoop_pos _ _ _ _ _ _ (by norm_num : (2:ℕ) ^ 64 - 1 ≠ 0), hsp]

/-- Evaluation of `Intersection` on the clamped branch for the segments
`(0,0)-(1,0)` and `(0,5)-(1,6)`: both parameters solve to `-5`, both clamp to
`0`, and because the second clamped point's y-coordinate is based at `p1.y`,
the two clamped points coincide at `(0,0)` and the result is `0`. -/
theorem Intersection_mixed_base : Intersection ⟨0, 0⟩ ⟨1, 0⟩ ⟨0, 5⟩ ⟨1, 6⟩ = 0 := by
  have htA : tA ⟨0, 0⟩ ⟨1, 0⟩ ⟨0, 5⟩ ⟨1, 6⟩ = -5 := by norm_num [tA, denom]
  have htB : tB ⟨0, 0⟩ ⟨1, 0⟩ ⟨0, 5⟩ ⟨1, 6⟩ = -5 := by norm_num [tB, denom]
  rw [Intersection_of_clamp _ _ _ _ (by norm_num [denom, abs_lt])
    (by norm_num [htA, htB])]
  rw [htA, htB, clamp01_of_neg (by norm_num : (-5:ℝ) < 0)]
  norm_num [eucliDist, Real.sqrt_zero]

/-! ### Swap lemmas for the two segment arguments of `Intersection` -/

theorem denom_swap (p1 p2 p3 p4 : Point) : denom p3 p4 p1 p2 = -denom p1 p2 p3 p4 := by
  unfold denom; ring

theorem abs_denom_swap (p1 p2 p3 p4 : Point) :
    |denom p3 p4 p1 p2 - 0| = |denom p1 p2 p3 p4 - 0| := by
  rw [denom_swap, sub_zero, sub_zero, abs_neg]

theorem tA_swap (p1 p2 p3 p4 : Point) : tA p3 p4 p1 p2 = tB p1 p2 p3 p4 := by
  unfold tA tB
  rw [denom_swap,
    show (p3.x - p1.x) * (p2.y - p1.y) + (p1.y - p3.y) * (p2.x - p1.x) =
      -((p1.x - p3.x) * (p2.y - p1.y) + (p3.y - p1.y) * (p2.x - p1.x)) from by ring,
    neg_div_neg_eq]

theorem tB_swap (p1 p2 p3 p4 : Point) : tB p3 p4 p1 p2 = tA p1 p2 p3 p4 := by
  unfold tA tB
  rw [denom_swap,
    show (p3.x - p1.x) * (p4.y - p3.y) + (p1.y - p3.y) * (p4.x - p3.x) =
      -((p1.x - p3.x) * (p4.y - p3.y) + (p3.y - p1.y) * (p4.x - p3.x)) from by ring,
    neg_div_neg_eq]

/-! ### Claim theorems (first batch) -/

/-- C1: the point-distance operation `eucliDist` is claimed to return
`sqrt((p1.x−p2.x)² + (p1.y−p2.y)²)`, squaring the difference of the
y-coordinates.  The source squares their sum instead: on `p1 = (0,1)`,
`p2 = (0,2)` the code yields `3`, while the claimed formula yields `1`. -/
theorem eucliDist_squares_y_sum :
    eucliDist ⟨0, 1⟩ ⟨0, 2⟩ = 3 ∧ Real.sqrt ((0 - 0) ^ 2 + ((1:ℝ) - 2) ^ 2) = 1 :=
  ⟨eucliDist_vertical, sqrt_eval (by norm_num) (by norm_num)⟩

/-- C2: for a pair of agents where the ego trajectory is empty, the claim says
`collisionCheckBetweenTwoPaths` returns `false` without out-of-range access.
In the source the unsigned bound `size() - 1` wraps around and the first
iteration reads `ego.future_traj[0]` out of range (modelled as `none`). -/
theorem pairwise_empty_ego_crashes :
    collisionCheckBetweenTwoPaths ⟨[⟨0, 0⟩, ⟨1, 0⟩], 0⟩ ⟨([] : List Point), 0⟩ = none :=
  pairwise_ego_empty _ _ _ _

/-- C3: on segments `(0,0)-(1,0)` and `(0,5)-(1,6)` the clamped branch fires
with both parameters clamped to `0`.  The claim says the second closest point
is `p3 + d_B·t2 = (0,5)` and the result the distance to it (which is `5`);
the source instead bases the second point's y-coordinate at `p1.y`, producing
`(0,0)` and the result `0`. -/
theorem Intersection_mixed_base_bug :
    Intersection ⟨0, 0⟩ ⟨1, 0⟩ ⟨0, 5⟩ ⟨1, 6⟩ = 0 ∧ eucliDist ⟨0, 0⟩ ⟨0, 5⟩ = 5 :=
  ⟨Intersection_mixed_base, eucliDist_five⟩

/-- C4 counterexample: `Intersection` is not symmetric in its two segment
arguments.  On the parallel pair `(0,0)-(1,0)` and `(0,1)-(2,1)` the fallback
returns the endpoint distance of whichever segment comes first: `1` in one
order and `√8` in the other. -/
theorem Intersection_not_symmetric :
    Intersection ⟨0, 0⟩ ⟨1, 0⟩ ⟨0, 1⟩ ⟨2, 1⟩ ≠ Intersection ⟨0, 1⟩ ⟨2, 1⟩ ⟨0, 0⟩ ⟨1, 0⟩ := by
  have h1 : Intersection ⟨0, 0⟩ ⟨1, 0⟩ ⟨0, 1⟩ ⟨2, 1⟩ = 1 := by
    rw [Intersection_of_parallel _ _ _ _ (by norm_num [denom])]
    exact eucliDist_unit
  have h2 : Intersection ⟨0, 1⟩ ⟨2, 1⟩ ⟨0, 0⟩ ⟨1, 0⟩ = Real.sqrt 8 := by
    rw [Intersection_of_parallel _ _ _ _ (by norm_num [denom])]
    exact eucliDist_sqrt_eight
  rw [h1, h2]
  intro h
  have h8 := Real.sqrt_eq_one.mp h.symm
  norm_num at h8

/-- C4 amended: symmetry does hold in the segments-intersect branch: when the
denominator is not within epsilon of zero and both solved parameters lie in
`[0,1]`, both argument orders return `0`. -/
theorem Intersection_symm_of_crossing (p1 p2 p3 p4 : Point)
    (hden : ¬ |denom p1 p2 p3 p4 - 0| < 1e-4)
    (h1 : tA p1 p2 p3 p4 ≥ 0) (h2 : tA p1 p2 p3 p4 ≤ 1)
    (h3 : tB p1 p2 p3 p4 ≥ 0) (h4 : tB p1 p2 p3 p4 ≤ 1) :
    Intersection p1 p2 p3 p4 = Intersection p3 p4 p1 p2 := by
  rw [Intersection_of_crossing p1 p2 p3 p4 hden h1 h2 h3 h4,
      Intersection_of_crossing p3 p4 p1 p2
        (by rw [abs_denom_swap]; exact hden)
        (by rw [tA_swap]; exact h3) (by rw [tA_swap]; exact h4)
        (by rw [tB_swap]; exact h1) (by rw [tB_swap]; exact h2)]

/-- Witness for the amended C4 theorem at the crossing pair
`(0,0)-(2,2)` and `(0,2)-(2,0)`. -/
theorem Intersection_symm_of_crossing_witness :
    (¬ |denom ⟨0, 0⟩ ⟨2, 2⟩ ⟨0, 2⟩ ⟨2, 0⟩ - 0| < 1e-4) ∧
    tA ⟨0, 0⟩ ⟨2, 2⟩ ⟨0, 2⟩ ⟨2, 0⟩ ≥ 0 ∧ tA ⟨0, 0⟩ ⟨2, 2⟩ ⟨0, 2⟩ ⟨2, 0⟩ ≤ 1 ∧
    tB ⟨0, 0⟩ ⟨2, 2⟩ ⟨0, 2⟩ ⟨2, 0⟩ ≥ 0 ∧ tB ⟨0, 0⟩ ⟨2, 2⟩ ⟨0, 2⟩ ⟨2, 0⟩ ≤ 1 ∧
    Intersection ⟨0, 0⟩ ⟨2, 2⟩ ⟨0, 2⟩ ⟨2, 0⟩ = Intersection ⟨0, 2⟩ ⟨2, 0⟩ ⟨0, 0⟩ ⟨2, 2⟩ :=
  ⟨by norm_num [denom, abs_lt], by norm_num [tA, denom], by norm_num [tA, denom],
   by norm_num [tB, denom], by norm_num [tB, denom],
   Intersection_symm_of_crossing _ _ _ _ (by norm_num [denom, abs_lt])
     (by norm_num [tA, denom]) (by norm_num [tA, denom])
     (by norm_num [tB, denom]) (by norm_num [tB, denom])⟩

/-- C7: when the denominator is not below epsilon and both solved parameters
lie in `[0,1]`, `Intersection` returns exactly `0`. -/
theorem Intersection_crossing_returns_zero (p1 p2 p3 p4 : Point)
    (hden : ¬ |denom p1 p2 p3 p4 - 0| < 1e-4)
    (h1 : tA p1 p2 p3 p4 ≥ 0) (h2 : tA p1 p2 p3 p4 ≤ 1)
    (h3 : tB p1 p2 p3 p4 ≥ 0) (h4 : tB p1 p2 p3 p4 ≤ 1) :
    Intersection p1 p2 p3 p4 = 0 :=
  Intersection_of_crossing p1 p2 p3 p4 hden h1 h2 h3 h4

/-- Witness for C7 at the pair `(0,0)-(2,2)` and `(0,2)-(2,0)` named by the
claim (they cross at `(1,1)`; the parameters are both `1/2`). -/
theorem Intersection_crossing_returns_zero_witness :
    (¬ |denom ⟨0, 0⟩ ⟨2, 2⟩ ⟨0, 2⟩ ⟨2, 0⟩ - 0| < 1e-4) ∧
    tA ⟨0, 0⟩ ⟨2, 2⟩ ⟨0, 2⟩ ⟨2, 0⟩ ≥ 0 ∧ tA ⟨0, 0⟩ ⟨2, 2⟩ ⟨0, 2⟩ ⟨2, 0⟩ ≤ 1 ∧
    tB ⟨0, 0⟩ ⟨2, 2⟩ ⟨0, 2⟩ ⟨2, 0⟩ ≥ 0 ∧ tB ⟨0, 0⟩ ⟨2, 2⟩ ⟨0, 2⟩ ⟨2, 0⟩ ≤ 1 ∧
    Intersection ⟨0, 0⟩ ⟨2, 2⟩ ⟨0, 2⟩ ⟨2, 0⟩ = 0 :=
  ⟨by norm_num [denom, abs_lt], by norm_num [tA, denom], by norm_num [tA, denom],
   by norm_num [tB, denom], by norm_num [tB, denom],
   Intersection_crossing_returns_zero _ _ _ _ (by norm_num [denom, abs_lt])
     (by norm_num [tA, denom]) (by norm_num [tA, denom])
     (by norm_num [tB, denom]) (by norm_num [tB, denom])⟩

/-- C8: whenever `|denominator|` is below the epsilon threshold `1e-4`, the
operation returns the source's point distance between the first segment's own
two endpoints, independently of the second segment. -/
theorem Intersection_parallel_returns_first_endpoints (p1 p2 p3 p4 : Point)
    (h : |denom p1 p2 p3 p4 - 0| < 1e-4) :
    Intersection p1 p2 p3 p4 = eucliDist p1 p2 :=
  Intersection_of_parallel p1 p2 p3 p4 h

/-- Witness for C8 on the parallel pair `(0,0)-(1,0)` and `(0,1)-(2,1)`. -/
theorem Intersection_parallel_returns_first_endpoints_witness :
    |denom ⟨0, 0⟩ ⟨1, 0⟩ ⟨0, 1⟩ ⟨2, 1⟩ - 0| < 1e-4 ∧
    Intersection ⟨0, 0⟩ ⟨1, 0⟩ ⟨0, 1⟩ ⟨2, 1⟩ = eucliDist ⟨0, 0⟩ ⟨1, 0⟩ :=
  ⟨by norm_num [denom],
   Intersection_parallel_returns_first_endpoints _ _ _ _ (by norm_num [denom])⟩

/-! ### The crossing demo pair `(0,0)-(1,1)` vs `(0,1)-(1,0)` -/

/-- On the crossing one-segment trajectories the pairwise check reduces to
comparing the intersection distance `0` against the combined radius. -/
theorem pairwise_cross (r1 r2 : ℝ) :
    collisionCheckBetweenTwoPaths ⟨[⟨0, 1⟩, ⟨1, 0⟩], r1⟩ ⟨[⟨0, 0⟩, ⟨1, 1⟩], r2⟩ =
      if (0:ℝ) < r2 + r1 then some true else some false := by
  rw [pairwise_two_two, Intersection_cross]

/-- C5 counterexample: with both radii equal to `0` the strict comparison
`0 < 0` fails, so the crossing trajectories are reported as no collision. -/
theorem pairwise_cross_zero_radii :
    collisionCheckBetweenTwoPaths ⟨[⟨0, 1⟩, ⟨1, 0⟩], 0⟩ ⟨[⟨0, 0⟩, ⟨1, 1⟩], 0⟩ = some false := by
  rw [pairwise_cross, if_neg (by norm_num : ¬ (0:ℝ) < 0 + 0)]

/-- C5 amended: on the crossing trajectories `[(0,0)-(1,1)]` and
`[(0,1)-(1,0)]` the pairwise check reports a collision for every pair of
non-negative radii of strictly positive sum. -/
theorem pairwise_cross_pos_radii (r1 r2 : ℝ) (h1 : 0 ≤ r1) (h2 : 0 ≤ r2)
    (hpos : 0 < r1 + r2) :
    collisionCheckBetweenTwoPaths ⟨[⟨0, 1⟩, ⟨1, 0⟩], r1⟩ ⟨[⟨0, 0⟩, ⟨1, 1⟩], r2⟩ = some true := by
  rw [pairwise_cross, if_pos (by linarith : (0:ℝ) < r2 + r1)]

/-- Witness for the amended C5 theorem at radii `1` and `0`. -/
theorem pairwise_cross_pos_radii_witness :
    (0:ℝ) ≤ 1 ∧ (0:ℝ) ≤ 0 ∧ (0:ℝ) < 1 + 0 ∧
    collisionCheckBetweenTwoPaths ⟨[⟨0, 1⟩, ⟨1, 0⟩], 1⟩ ⟨[⟨0, 0⟩, ⟨1, 1⟩], 0⟩ = some true :=
  ⟨by norm_num, le_refl 0, by norm_num,
   pairwise_cross_pos_radii 1 0 (by norm_num) (le_refl 0) (by norm_num)⟩

/-! ### Monotonicity of the pairwise check in the combined safety radius -/

theorem innerLoop_mono {safe safe' : ℝ} (hs : safe ≤ safe') (e o : List Point) (i : ℕ) :
    ∀ fuel j, innerLoop safe e o i j fuel = some true →
      innerLoop safe' e o i j fuel = some true := by
  intro fuel
  induction fuel with
  | zero =>
    intro j h
    rw [innerLoop_zero] at h
    simp at h
  | succ n ih =>
    intro j h
    rw [innerLoop_succ] at h ⊢
    cases hsp : segPair e o i j with
    | none =>
      rw [hsp] at h
      simp at h
    | some d =>
      rw [hsp] at h
      dsimp only at h ⊢
      by_cases hd : d < safe'
      · rw [if_pos hd]
      · have hd0 : ¬ d < safe := fun hlt => hd (lt_of_lt_of_le hlt hs)
        rw [if_neg hd0] at h
        rw [if_neg hd]
        exact ih _ h

theorem innerLoop_false_mono {safe safe' : ℝ} (hs : safe ≤ safe') (e o : List Point) (i : ℕ) :
    ∀ fuel j, innerLoop safe e o i j fuel = some false →
      innerLoop safe' e o i j fuel = some true ∨ innerLoop safe' e o i j fuel = some false := by
  intro fuel
  induction fuel with
  | zero =>
    intro j _
    right
    exact innerLoop_zero safe' e o i j
  | succ n ih =>
    intro j h
    rw [innerLoop_succ] at h ⊢
    cases hsp : segPair e o i j with
    | none =>
      rw [hsp] at h
      simp at h
    | some d =>
      rw [hsp] at h
      dsimp only at h ⊢
      by_cases hd : d < safe'
      · left
        rw [if_pos hd]
      · have hd0 : ¬ d < safe := fun hlt => hd (lt_of_lt_of_le hlt hs)
        rw [if_neg hd0] at h
        rw [if_neg hd]
        exact ih _ h

theorem outerLoop_mono {safe safe' : ℝ} (hs : safe ≤ safe') (e o : List Point) (jb : ℕ) :
    ∀ fuel i, outerLoop safe e o jb i fuel = some true →
      outerLoop safe' e o jb i fuel = some true := by
  intro fuel
  induction fuel with
  | zero =>
    intro i h
    rw [outerLoop_zero] at h
    simp at h
  | succ n ih =>
    intro i h
    rw [outerLoop_succ] at h ⊢
    cases hin : innerLoop safe e o i 0 jb with
    | none =>
      rw [hin] at h
      simp at h
    | some b =>
      cases b with
      | true =>
        rw [innerLoop_mono hs e o i _ _ hin]
      | false =>
        rw [hin] at h
        dsimp only at h
        rcases innerLoop_false_mono hs e o i _ _ hin with htrue | hfalse
        · rw [htrue]
        · rw [hfalse]
          dsimp only
          exact ih _ h

/-- C9: for fixed trajectories, if the pairwise check reports a collision at
radii summing to `R`, it also reports one at any radii of sum at least `R`. -/
theorem pairwise_radius_monotone (tObj tEgo : List Point) (r1 r2 r1' r2' : ℝ)
    (hR : r2 + r1 ≤ r2' + r1')
    (h : collisionCheckBetweenTwoPaths ⟨tObj, r1⟩ ⟨tEgo, r2⟩ = some true) :
    collisionCheckBetweenTwoPaths ⟨tObj, r1'⟩ ⟨tEgo, r2'⟩ = some true := by
  unfold collisionCheckBetweenTwoPaths at h ⊢
  dsimp only at h ⊢
  exact outerLoop_mono hR _ _ _ _ _ h

/-- Witness for C9 on the crossing trajectories: collision at radius sum `1`
(radii `1` and `0`), hence also at radius sum `2` (radii `1` and `1`). -/
theorem pairwise_radius_monotone_witness :
    ((0:ℝ) + 1 ≤ 1 + 1) ∧
    collisionCheckBetweenTwoPaths ⟨[⟨0, 1⟩, ⟨1, 0⟩], 1⟩ ⟨[⟨0, 0⟩, ⟨1, 1⟩], 0⟩ = some true ∧
    collisionCheckBetweenTwoPaths ⟨[⟨0, 1⟩, ⟨1, 0⟩], 1⟩ ⟨[⟨0, 0⟩, ⟨1, 1⟩], 1⟩ = some true := by
  have h : collisionCheckBetweenTwoPaths ⟨[⟨0, 1⟩, ⟨1, 0⟩], 1⟩ ⟨[⟨0, 0⟩, ⟨1, 1⟩], 0⟩ =
      some true := by
    rw [pairwise_cross, if_pos (by norm_num : (0:ℝ) < 0 + 1)]
  exact ⟨by norm_num, h,
    pairwise_radius_monotone [⟨0, 1⟩, ⟨1, 0⟩] [⟨0, 0⟩, ⟨1, 1⟩] 1 0 1 1 (by norm_num) h⟩

/-! ### Scene-level lemmas -/

theorem collisionCheckList_nil (ego : DynamicObj) :
    collisionCheckList ego ([] : List DynamicObj) = some false := rfl

theorem collisionCheckList_cons (ego obj : DynamicObj) (rest : List DynamicObj) :
    collisionCheckList ego (obj :: rest) =
      scanStep (collisionCheckBetweenTwoPaths obj ego) (collisionCheckList ego rest) := rfl

theorem collisionCheckList_cons_none (ego obj : DynamicObj) (rest : List DynamicObj)
    (h : collisionCheckBetweenTwoPaths obj ego = none) :
    collisionCheckList ego (obj :: rest) = none := by
  rw [collisionCheckList_cons, h]
  rfl

theorem collisionCheckList_cons_true (ego obj : DynamicObj) (rest : List DynamicObj)
    (h : collisionCheckBetweenTwoPaths obj ego = some true) :
    collisionCheckList ego (obj :: rest) = some true := by
  rw [collisionCheckList_cons, h]
  rfl

theorem collisionCheckList_cons_false (ego obj : DynamicObj) (rest : List DynamicObj)
    (h : collisionCheckBetweenTwoPaths obj ego = some false) :
    collisionCheckList ego (obj :: rest) = collisionCheckList ego rest := by
  rw [collisionCheckList_cons, h]
  rfl

theorem scanStep_none (rest : Option Bool) : scanStep none rest = none := rfl

theorem scanStep_true (rest : Option Bool) : scanStep (some true) rest = some true := rfl

theorem scanStep_false (rest : Option Bool) : scanStep (some false) rest = rest := rfl

/-- Under the no-out-of-range-access hypothesis, the scene loop returns
`some true` exactly when some listed object's pairwise check does. -/
theorem collisionCheckList_true_iff (ego : DynamicObj) :
    ∀ l : List DynamicObj, (∀ a ∈ l, collisionCheckBetweenTwoPaths a ego ≠ none) →
      (collisionCheckList ego l = some true ↔
        ∃ a ∈ l, collisionCheckBetweenTwoPaths a ego = some true) := by
  intro l
  induction l with
  | nil =>
    intro _
    simp [collisionCheckList_nil]
  | cons obj rest ih =>
    intro h
    have hobj := h obj (List.mem_cons_self obj rest)
    have hrest := fun a ha => h a (List.mem_cons_of_mem obj ha)
    rw [collisionCheckList_cons]
    cases hv : collisionCheckBetweenTwoPaths obj ego with
    | none => exact absurd hv hobj
    | some b =>
      cases b with
      | true =>
        rw [scanStep_true]
        constructor
        · intro _
          exact ⟨obj, List.mem_cons_self obj rest, hv⟩
        · intro _
          rfl
      | false =>
        rw [scanStep_false]
        rw [ih hrest]
        constructor
        · rintro ⟨a, ha, hpa⟩
          exact ⟨a, List.mem_cons_of_mem obj ha, hpa⟩
        · rintro ⟨a, ha, hpa⟩
          rcases List.mem_cons.mp ha with rfl | ha'
          · rw [hv] at hpa
            simp at hpa
          · exact ⟨a, ha', hpa⟩

/-- Under the no-out-of-range-access hypothesis the scene loop never fails. -/
theorem collisionCheckList_ne_none (ego : DynamicObj) :
    ∀ l : List DynamicObj, (∀ a ∈ l, collisionCheckBetweenTwoPaths a ego ≠ none) →
      collisionCheckList ego l ≠ none := by
  intro l
  induction l with
  | nil =>
    intro _
    rw [collisionCheckList_nil]
    simp
  | cons obj rest ih =>
    intro h
    rw [collisionCheckList_cons]
    cases hv : collisionCheckBetweenTwoPaths obj ego with
    | none => exact absurd hv (h obj (List.mem_cons_self obj rest))
    | some b =>
      cases b with
      | true =>
        rw [scanStep_true]
        simp
      | false =>
        rw [scanStep_false]
        exact ih (fun a ha => h a (List.mem_cons_of_mem obj ha))

/-- C6 counterexample: in a scene whose first surrounding object has an empty
trajectory, the scan fails (out-of-range read, modelled `none`) before it
reaches the second object, even though that second object does collide with
the ego path, so `collisionCheck` does not return `true`. -/
theorem collisionCheck_or_counterexample :
    collisionCheck ⟨⟨[⟨0, 0⟩, ⟨1, 1⟩], 0⟩,
        [⟨([] : List Point), 0⟩, ⟨[⟨0, 1⟩, ⟨1, 0⟩], 1⟩]⟩ = none ∧
    collisionCheckBetweenTwoPaths ⟨[⟨0, 1⟩, ⟨1, 0⟩], 1⟩ ⟨[⟨0, 0⟩, ⟨1, 1⟩], 0⟩ = some true := by
  constructor
  · show collisionCheckList _ _ = none
    rw [collisionCheckList_cons, pairwise_obj_empty, scanStep_none]
  · rw [pairwise_cross, if_pos (by norm_num : (0:ℝ) < 0 + 1)]

/-- C6 amended: in a scene where no pairwise check fails, `collisionCheck`
returns `some true` iff the pairwise check reports a collision for at least
one agent in `surroundings`; moreover a collision on the first listed agent
decides the result regardless of the remaining agents. -/
theorem collisionCheck_or_shortcircuit (c : CollisionCheck)
    (h : ∀ a ∈ c.surroundings, collisionCheckBetweenTwoPaths a c.ego ≠ none) :
    (collisionCheck c = some true ↔
      ∃ a ∈ c.surroundings, collisionCheckBetweenTwoPaths a c.ego = some true) ∧
    ∀ obj rest, collisionCheckBetweenTwoPaths obj c.ego = some true →
      collisionCheckList c.ego (obj :: rest) = some true := by
  constructor
  · exact collisionCheckList_true_iff c.ego c.surroundings h
  · intro obj rest hobj
    rw [collisionCheckList_cons, hobj, scanStep_true]

/-- Witness for the amended C6 theorem on a one-agent scene whose crossing
trajectories collide at radii `1` and `0`. -/
theorem collisionCheck_or_shortcircuit_witness :
    (∀ a ∈ [(⟨[⟨0, 1⟩, ⟨1, 0⟩], 1⟩ : DynamicObj)],
        collisionCheckBetweenTwoPaths a (⟨[⟨0, 0⟩, ⟨1, 1⟩], 0⟩ : DynamicObj) ≠ none) ∧
    ((collisionCheck ⟨⟨[⟨0, 0⟩, ⟨1, 1⟩], 0⟩, [⟨[⟨0, 1⟩, ⟨1, 0⟩], 1⟩]⟩ = some true ↔
        ∃ a ∈ [(⟨[⟨0, 1⟩, ⟨1, 0⟩], 1⟩ : DynamicObj)],
          collisionCheckBetweenTwoPaths a (⟨[⟨0, 0⟩, ⟨1, 1⟩], 0⟩ : DynamicObj) = some true) ∧
      ∀ obj rest,
        collisionCheckBetweenTwoPaths obj (⟨[⟨0, 0⟩, ⟨1, 1⟩], 0⟩ : DynamicObj) = some true →
          collisionCheckList ⟨[⟨0, 0⟩, ⟨1, 1⟩], 0⟩ (obj :: rest) = some true) := by
  have hne : ∀ a ∈ [(⟨[⟨0, 1⟩, ⟨1, 0⟩], 1⟩ : DynamicObj)],
      collisionCheckBetweenTwoPaths a (⟨[⟨0, 0⟩, ⟨1, 1⟩], 0⟩ : DynamicObj) ≠ none := by
    intro a ha
    rw [List.mem_singleton] at ha
    subst ha
    rw [pairwise_cross, if_pos (by norm_num : (0:ℝ) < 0 + 1)]
    simp
  exact ⟨hne,
    collisionCheck_or_shortcircuit ⟨⟨[⟨0, 0⟩, ⟨1, 1⟩], 0⟩, [⟨[⟨0, 1⟩, ⟨1, 0⟩], 1⟩]⟩ hne⟩

/-- C10 counterexample: the verdict of `collisionCheck` is not invariant under
permutations of `surroundings`.  With a colliding agent and an
empty-trajectory agent, one order returns `some true` (the colliding agent is
scanned first) while the swapped order fails with an out-of-range read
(modelled `none`) before reaching the colliding agent. -/
theorem collisionCheck_perm_counterexample :
    collisionCheck ⟨⟨[⟨0, 0⟩, ⟨1, 1⟩], 0⟩,
        [⟨[⟨0, 1⟩, ⟨1, 0⟩], 1⟩, ⟨([] : List Point), 0⟩]⟩ = some true ∧
    collisionCheck ⟨⟨[⟨0, 0⟩, ⟨1, 1⟩], 0⟩,
        [⟨([] : List Point), 0⟩, ⟨[⟨0, 1⟩, ⟨1, 0⟩], 1⟩]⟩ = none ∧
    [(⟨[⟨0, 1⟩, ⟨1, 0⟩], 1⟩ : DynamicObj), ⟨([] : List Point), 0⟩].Perm
      [⟨([] : List Point), 0⟩, ⟨[⟨0, 1⟩, ⟨1, 0⟩], 1⟩] := by
  refine ⟨?_, ?_, ?_⟩
  · show collisionCheckList _ _ = some true
    rw [collisionCheckList_cons_true]
    rw [pairwise_cross, if_pos (by norm_num : (0:ℝ) < 0 + 1)]
  · show collisionCheckList _ _ = none
    rw [collisionCheckList_cons, pairwise_obj_empty, scanStep_none]
  · exact List.Perm.swap _ _ _

/-- C10 amended: in a scene where no pairwise check fails, the verdict of the
surroundings scan is invariant under any permutation of the surroundings
collection, and an empty surroundings collection always yields `false`. -/
theorem collisionCheck_perm_invariant (ego : DynamicObj) (l l' : List DynamicObj)
    (hperm : l.Perm l')
    (h : ∀ a ∈ l, collisionCheckBetweenTwoPaths a ego ≠ none) :
    collisionCheckList ego l = collisionCheckList ego l' ∧
    collisionCheckList ego ([] : List DynamicObj) = some false := by
  have h' : ∀ a ∈ l', collisionCheckBetweenTwoPaths a ego ≠ none :=
    fun a ha => h a (hperm.mem_iff.mpr ha)
  refine ⟨?_, rfl⟩
  have hiff : collisionCheckList ego l = some true ↔
      collisionCheckList ego l' = some true := by
    rw [collisionCheckList_true_iff ego l h, collisionCheckList_true_iff ego l' h']
    constructor
    · rintro ⟨a, ha, hpa⟩
      exact ⟨a, hperm.mem_iff.mp ha, hpa⟩
    · rintro ⟨a, ha, hpa⟩
      exact ⟨a, hperm.mem_iff.mpr ha, hpa⟩
  cases hv : collisionCheckList ego l with
  | none => exact absurd hv (collisionCheckList_ne_none ego l h)
  | some b =>
    cases hv' : collisionCheckList ego l' with
    | none => exact absurd hv' (collisionCheckList_ne_none ego l' h')
    | some b' =>
      cases b with
      | true =>
        have h2 : collisionCheckList ego l' = some true := hiff.mp hv
        exact (hv'.symm.trans h2).symm
      | false =>
        cases b' with
        | true =>
          have h2 : collisionCheckList ego l = some true := hiff.mpr hv'
          have h3 := hv.symm.trans h2
          simp at h3
        | false => rfl

/-- Witness for the amended C10 theorem: two colliding agents listed in both
orders give the same verdict, and the empty collection gives `false`. -/
theorem collisionCheck_perm_invariant_witness :
    ([(⟨[⟨0, 1⟩, ⟨1, 0⟩], 1⟩ : DynamicObj), ⟨[⟨0, 1⟩, ⟨1, 0⟩], 2⟩].Perm
       [⟨[⟨0, 1⟩, ⟨1, 0⟩], 2⟩, ⟨[⟨0, 1⟩, ⟨1, 0⟩], 1⟩]) ∧
    (∀ a ∈ [(⟨[⟨0, 1⟩, ⟨1, 0⟩], 1⟩ : DynamicObj), ⟨[⟨0, 1⟩, ⟨1, 0⟩], 2⟩],
        collisionCheckBetweenTwoPaths a (⟨[⟨0, 0⟩, ⟨1, 1⟩], 0⟩ : DynamicObj) ≠ none) ∧
    (collisionCheckList ⟨[⟨0, 0⟩, ⟨1, 1⟩], 0⟩
        [⟨[⟨0, 1⟩, ⟨1, 0⟩], 1⟩, ⟨[⟨0, 1⟩, ⟨1, 0⟩], 2⟩] =
      collisionCheckList ⟨[⟨0, 0⟩, ⟨1, 1⟩], 0⟩
        [⟨[⟨0, 1⟩, ⟨1, 0⟩], 2⟩, ⟨[⟨0, 1⟩, ⟨1, 0⟩], 1⟩] ∧
     collisionCheckList ⟨[⟨0, 0⟩, ⟨1, 1⟩], 0⟩ ([] : List DynamicObj) = some false) := by
  have hperm : [(⟨[⟨0, 1⟩, ⟨1, 0⟩], 1⟩ : DynamicObj), ⟨[⟨0, 1⟩, ⟨1, 0⟩], 2⟩].Perm
      [⟨[⟨0, 1⟩, ⟨1, 0⟩], 2⟩, ⟨[⟨0, 1⟩, ⟨1, 0⟩], 1⟩] := List.Perm.swap _ _ _
  have hne : ∀ a ∈ [(⟨[⟨0, 1⟩, ⟨1, 0⟩], 1⟩ : DynamicObj), ⟨[⟨0, 1⟩, ⟨1, 0⟩], 2⟩],
      collisionCheckBetweenTwoPaths a (⟨[⟨0, 0⟩, ⟨1, 1⟩], 0⟩ : DynamicObj) ≠ none := by
    intro a ha
    rcases List.mem_cons.mp ha with rfl | ha'
    · rw [pairwise_cross, if_pos (by norm_num : (0:ℝ) < 0 + 1)]
      simp
    · rw [List.mem_singleton] at ha'
      subst ha'
      rw [pairwise_cross, if_pos (by norm_num : (0:ℝ) < 0 + 2)]
      simp
  exact ⟨hperm, hne, collisionCheck_perm_invariant _ _ _ hperm hne⟩
